import Mathlib

/-!
Verification of the credential and token lifecycle of the fullstack-template
backend (registration, login, profile retrieval, password reset).

The route handlers are shallowly embedded from the JavaScript sources:
`src/backend/routes/authRoutes.js`, `src/backend/routes/userRoutes.js`,
`src/backend/routes/auth/login.js`, `src/backend/routes/auth/resetPassword.js`,
`src/backend/utils/validationSchemas.js`, `src/backend/models/User.js`, and the
unnamed route files.  External collaborators (bcrypt, jsonwebtoken, Joi, the
Sequelize user store, the mailer) are modelled at their interfaces; effects on
the store and on the mailer are made explicit as returned values.
-/

namespace FullstackTemplate

/-- Splits a character list at every occurrence of the separator, keeping empty
segments, mirroring the JavaScript `String.prototype.split` behaviour for a
one-character separator. -/
def splitCharList (sep : Char) : List Char → List (List Char)
  | [] => [[]]
  | c :: cs =>
    let rest := splitCharList sep cs
    if c == sep then [] :: rest
    else
      match rest with
      | r :: rs => (c :: r) :: rs
      | [] => [[c]]

/-- Model of the JavaScript `s.split(sep)` for a one-character separator,
as used by `authHeader.split(" ")` in the `verifyToken` middleware. -/
def jsSplit (sep : Char) (s : String) : List String :=
  (splitCharList sep s.toList).map (fun cs => String.mk cs)

/-- Accumulating decimal parser over a character list. -/
def parseNatDigits : List Char → Nat → Option Nat
  | [], acc => some acc
  | c :: cs, acc =>
    if c.isDigit then parseNatDigits cs (acc * 10 + (c.toNat - 48)) else none

/-- Parses a nonempty all-digit string as a natural number. -/
def parseNat (s : String) : Option Nat :=
  match s.toList with
  | [] => none
  | l => parseNatDigits l 0

/-! ### Credential Manager: model of the bcrypt collaborator

The routes call `bcrypt.hash(p, 10)` and `bcrypt.compare(p, storedHash)`.
The hash is modelled as a tagged transform of the plaintext so that comparison
can re-verify it; the model keeps the two interface facts the flows rely on:
a hash verifies against the password it was derived from, and a hash is never
the plaintext itself. -/

/-- Model of `bcrypt.hash(plaintext, cost)`. -/
def bcryptHash (plaintext : String) (cost : Nat) : String :=
  "$2b$" ++ toString cost ++ "$" ++ plaintext

/-- Model of `bcrypt.compare(plaintext, hash)` for hashes produced at the fixed
cost 10 used everywhere in the routes; returns false on any mismatch or
malformed hash, and never throws. -/
def bcryptCompare (plaintext hash : String) : Bool :=
  hash == bcryptHash plaintext 10

/-! ### Token Service: model of the jsonwebtoken collaborator -/

/-- The claim set of a signed token as issued by
`jwt.sign({ id: user.id }, process.env.JWT_SECRET, { expiresIn: "1h" })`:
subject id, issued-at, expiry, and a signature modelled as the secret the
token was signed with. -/
structure SignedToken where
  id : String
  iat : Nat
  exp : Nat
  sig : String
deriving Repr, DecidableEq

/-- A token value presented to `jwt.verify`: either a well-formed signed token
or an unparseable string. -/
inductive TokenInput where
  | wellFormed (t : SignedToken)
  | garbage (s : String)
deriving Repr, DecidableEq

/-- The error cases of `jwt.verify`: `TokenExpiredError`, or a
`JsonWebTokenError` for a bad signature or an unparseable token. -/
inductive JwtError where
  | expired
  | invalidSignature
  | malformed
deriving Repr, DecidableEq

/-- Model of `jwt.sign({ id }, secret, { expiresIn: "1h" })` at time `now`
(seconds): claims `{id, iat = now, exp = now + 3600}`. -/
def jwtSign (id secret : String) (now : Nat) : SignedToken :=
  { id := id, iat := now, exp := now + 3600, sig := secret }

/-- Model of `jwt.verify(token, secret)` at time `now`: an unparseable token is
malformed; then the signature is checked against the secret of the verifier;
then the token is expired when `exp <= now`; otherwise the decoded subject id
is returned. -/
def jwtVerify (t : TokenInput) (secret : String) (now : Nat) : Except JwtError String :=
  match t with
  | .garbage _ => .error .malformed
  | .wellFormed tok =>
    if tok.sig ≠ secret then .error .invalidSignature
    else if tok.exp ≤ now then .error .expired
    else .ok tok.id

/-- Serialization of a signed token into the dot-separated wire string that is
embedded into reset links and bearer headers. -/
def encodeTokenStr (t : SignedToken) : String :=
  t.id ++ "." ++ toString t.iat ++ "." ++ toString t.exp ++ "." ++ t.sig

/-- Model of the jsonwebtoken parse step on a wire string: four dot-separated
segments with numeric `iat` and `exp` form a well-formed token, anything else
is garbage (and will fail verification as malformed). -/
def jwtDecode (s : String) : TokenInput :=
  match jsSplit '.' s with
  | [id, iatStr, expStr, sig] =>
    match parseNat iatStr, parseNat expStr with
    | some iat, some exp => .wellFormed { id := id, iat := iat, exp := exp, sig := sig }
    | _, _ => .garbage s
  | _ => .garbage s

/-! ### Request validation: model of the Joi schemas in
`src/backend/utils/validationSchemas.js`

Missing body fields are modelled as `none`.  Joi aborts at the first failing
rule and the handlers answer 400 with `error.details[0].message`, so each
validator returns either the first error message or the parsed fields.
(Joi also rejects an empty required string; the model folds that case into the
required-field message, whose exact text no flow inspects.) -/

/-- Joi `.alphanum()`: every character is an ASCII letter or digit. -/
def isAlphanumStr (s : String) : Bool :=
  s.toList.all (fun c => c.isAlpha || c.isDigit)

/-- The special characters admitted by the password pattern
`[@$!%*?&#]` of the register and new-password schemas. -/
def passwordSpecials : List Char := ['@', '$', '!', '%', '*', '?', '&', '#']

/-- The password pattern of `registerSchema` and `newPasswordSchema`: at least
8 characters, at least one lowercase, one uppercase, one digit and one special
character, drawn only from letters, digits and the special set. -/
def passwordPatternOk (p : String) : Bool :=
  p.toList.any (fun c => c.isLower) &&
  p.toList.any (fun c => c.isUpper) &&
  p.toList.any (fun c => c.isDigit) &&
  p.toList.any (fun c => passwordSpecials.contains c) &&
  p.toList.all (fun c => c.isAlpha || c.isDigit || passwordSpecials.contains c) &&
  8 ≤ p.length

/-- Model of Joi `.email()`: one `@` with a nonempty local part and a nonempty
domain whose dot-separated labels are all nonempty, at least two of them. -/
def emailShaped (s : String) : Bool :=
  match jsSplit '@' s with
  | [lp, dom] =>
    lp ≠ "" && dom ≠ "" &&
    2 ≤ (jsSplit '.' dom).length && (jsSplit '.' dom).all (fun l => l ≠ "")
  | _ => false

/-- `registerSchema.validate` on the request body. -/
def registerValidate (username password email : Option String) :
    Except String (String × String × String) :=
  match username with
  | none => .error "Username is required."
  | some u =>
    if ¬isAlphanumStr u then .error "Username must only contain alphanumeric characters."
    else if u.length < 5 then .error "Username must be at least 5 characters long."
    else if 30 < u.length then .error "Username must not exceed 30 characters."
    else
      match password with
      | none => .error "Password is required."
      | some p =>
        if p.length < 8 then .error "Password must be at least 8 characters long."
        else if ¬passwordPatternOk p then
          .error "Password must include at least one uppercase letter, one lowercase letter, one number, and one special character."
        else
          match email with
          | none => .error "Email is required."
          | some e =>
            if ¬emailShaped e then .error "Email must be a valid email address."
            else .ok (u, p, e)

/-- `loginSchema.validate` on the request body. -/
def loginValidate (username password : Option String) :
    Except String (String × String) :=
  match username with
  | none => .error "Username is required."
  | some u =>
    if ¬isAlphanumStr u then .error "Username must only contain alphanumeric characters."
    else if u.length < 3 then .error "Username must be at least 3 characters long."
    else if 30 < u.length then .error "Username must not exceed 30 characters."
    else
      match password with
      | none => .error "Password is required."
      | some p =>
        if p = "" then .error "Password is required."
        else .ok (u, p)

/-- `resetPasswordSchema.validate` on the request body. -/
def resetPasswordValidate (email : Option String) : Except String String :=
  match email with
  | none => .error "Email is required."
  | some e =>
    if ¬emailShaped e then .error "Email must be a valid email address."
    else .ok e

/-- True unless the token body field is an empty string. -/
def tokenFieldNonempty : TokenInput → Bool
  | .garbage s => s ≠ ""
  | .wellFormed _ => true

/-- `newPasswordSchema.validate` on the request body of the reset-confirm
route; the token field carries whatever string the client sent, modelled as a
`TokenInput`. -/
def newPasswordValidate (token : Option TokenInput) (newPassword : Option String) :
    Except String (TokenInput × String) :=
  match token with
  | none => .error "Token is required."
  | some t =>
    if ¬tokenFieldNonempty t then .error "Token is required."
    else
      match newPassword with
      | none => .error "New password is required."
      | some p =>
        if p.length < 8 then .error "New password must be at least 8 characters long."
        else if ¬passwordPatternOk p then
          .error "New password must include at least one uppercase letter, one lowercase letter, one number, and one special character."
        else .ok (t, p)

/-! ### The user store collaborator

Model of the Sequelize `User` model (`src/backend/models/User.js`: UUID `id`,
unique `username`, `password` holding the bcrypt hash) together with the
`email` column used by the routes; per the store contract, `create` fails with
a unique-constraint violation when the username or the email is already taken.
The store is a list of records; lookups mirror `findOne`/`findByPk`. -/

structure UserRec where
  id : String
  username : String
  email : String
  password : String
deriving Repr, DecidableEq

/-- `User.findOne({ where: { username } })`. -/
def findByUsername (store : List UserRec) (u : String) : Option UserRec :=
  store.find? (fun r => r.username == u)

/-- `User.findOne({ where: { email } })`. -/
def findByEmail (store : List UserRec) (e : String) : Option UserRec :=
  store.find? (fun r => r.email == e)

/-- `User.findByPk(id)`. -/
def findByPk (store : List UserRec) (i : String) : Option UserRec :=
  store.find? (fun r => r.id == i)

/-- The unique-constraint test behind `SequelizeUniqueConstraintError`. -/
def uniqueConflict (store : List UserRec) (u e : String) : Bool :=
  store.any (fun r => r.username == u || r.email == e)

/-! ### Responses and effects -/

/-- The JSON body and status of a route response; `token`, `userId` and `user`
are the optional extra payload fields the routes attach. -/
structure HttpResponse where
  status : Nat
  message : String
  token : Option SignedToken := none
  userId : Option String := none
  user : Option (List (String × String)) := none
deriving Repr, DecidableEq

/-- One invocation of the mail collaborator
`sendResetMail(email, subject, username, link)`. -/
structure Mail where
  toAddr : String
  subject : String
  username : String
  link : String
deriving Repr, DecidableEq

/-! ### Route handlers -/

/-- `POST /register` (`authRoutes.js` lines 41-61, identical to `register` in
the unnamed register module): validate, hash the password at cost 10, create
the user; a unique-constraint violation answers 400, success answers 201 with
the new user id.  `newId` stands for the UUID the store assigns to the new
row. -/
def register (store : List UserRec) (newId : String)
    (username password email : Option String) : HttpResponse × List UserRec :=
  match registerValidate username password email with
  | .error msg => ({ status := 400, message := msg }, store)
  | .ok (u, p, e) =>
    let hashedPassword := bcryptHash p 10
    if uniqueConflict store u e then
      ({ status := 400, message := "Username or email already exists." }, store)
    else
      ({ status := 201, message := "User registered successfully.", userId := some newId },
       store ++ [{ id := newId, username := u, email := e, password := hashedPassword }])

/-- `POST /login` (`auth/login.js` lines 26-51, identical to the handler in
`authRoutes.js` lines 83-108): validate, look up by username, compare the
password against the stored hash, and on success issue a 1-hour token for the
user id.  The two failure branches answer with the same body. -/
def login (store : List UserRec) (secret : String) (now : Nat)
    (username password : Option String) : HttpResponse :=
  match loginValidate username password with
  | .error msg => { status := 400, message := msg }
  | .ok (u, p) =>
    match findByUsername store u with
    | none => { status := 400, message := "Invalid username or password." }
    | some user =>
      if ¬bcryptCompare p user.password then
        { status := 400, message := "Invalid username or password." }
      else
        { status := 200, message := "Login successful.",
          token := some (jwtSign user.id secret now) }

/-- `POST /reset-password` (`auth/resetPassword.js` lines 54-78): validate the
email, look it up, and for a known address sign a 1-hour reset token, embed it
in the reset link and dispatch one mail.  The second component collects the
invocations of the mail collaborator. -/
def resetPasswordRequest (store : List UserRec) (secret frontendUrl : String)
    (now : Nat) (email : Option String) : HttpResponse × List Mail :=
  match resetPasswordValidate email with
  | .error msg => ({ status := 400, message := msg }, [])
  | .ok e =>
    match findByEmail store e with
    | none => ({ status := 404, message := "Email not found." }, [])
    | some user =>
      let resetToken := jwtSign user.id secret now
      let resetLink := frontendUrl ++ "/reset-password?token=" ++ encodeTokenStr resetToken
      ({ status := 200, message := "Reset link sent successfully." },
       [{ toAddr := e, subject := "Password Reset Request",
          username := user.username, link := resetLink }])

/-- `PATCH /reset-password` (`auth/resetPassword.js` lines 80-107, identical to
`authRoutes.js` lines 183-210): validate, verify the token; a
`TokenExpiredError` answers 400 "Token expired.", any other verification
failure falls through the catch block to 500; a decoded id with no user
answers 400 "Invalid token."; otherwise the password column of that user is
overwritten with the hash of the new password.  The second component is the
store after the operation. -/
def resetPassword (store : List UserRec) (secret : String) (now : Nat)
    (token : Option TokenInput) (newPassword : Option String) :
    HttpResponse × List UserRec :=
  match newPasswordValidate token newPassword with
  | .error msg => ({ status := 400, message := msg }, store)
  | .ok (t, newPw) =>
    match jwtVerify t secret now with
    | .error .expired => ({ status := 400, message := "Token expired." }, store)
    | .error _ => ({ status := 500, message := "Internal server error." }, store)
    | .ok decodedId =>
      match findByPk store decodedId with
      | none => ({ status := 400, message := "Invalid token." }, store)
      | some user =>
        let hashedPassword := bcryptHash newPw 10
        ({ status := 200, message := "Password reset successfully." },
         store.map (fun r => if r.id == user.id then { r with password := hashedPassword } else r))

/-- The token-extraction half of the `verifyToken` middleware
(`userRoutes.js` lines 150-160): a missing or empty Authorization header, a
header without a second space-separated segment, or an empty second segment
all yield no token; otherwise the second segment is the token string.  The
first segment (the scheme word) is never looked at. -/
def extractToken : Option String → Option String
  | none => none
  | some h =>
    if h = "" then none
    else
      match (jsSplit ' ' h)[1]? with
      | none => none
      | some t => if t = "" then none else some t

/-- The outcome of the `verifyToken` middleware: 403 "No token provided.",
401 "Invalid token.", or control passed on with `req.userId` set. -/
inductive VerifyTokenOutcome where
  | noToken
  | invalidToken
  | authorized (userId : String)
deriving Repr, DecidableEq

/-- The `verifyToken` middleware (`userRoutes.js` lines 150-168, identical in
the unnamed routes module): extract the token string from the header and run
`jwt.verify` on it; every verification error collapses to the single
invalid-token outcome. -/
def verifyToken (authHeader : Option String) (secret : String) (now : Nat) :
    VerifyTokenOutcome :=
  match extractToken authHeader with
  | none => .noToken
  | some t =>
    match jwtVerify (jwtDecode t) secret now with
    | .error _ => .invalidToken
    | .ok uid => .authorized uid

/-- `GET /profile` in `userRoutes.js` lines 136-148: behind `verifyToken`,
look up the subject and answer with the record projected to
`attributes: ["id", "username"]`. -/
def getProfile (store : List UserRec) (secret : String) (now : Nat)
    (authHeader : Option String) : HttpResponse :=
  match verifyToken authHeader secret now with
  | .noToken => { status := 403, message := "No token provided." }
  | .invalidToken => { status := 401, message := "Invalid token." }
  | .authorized uid =>
    match findByPk store uid with
    | none => { status := 404, message := "User not found." }
    | some user =>
      { status := 200, message := "Welcome to your profile!",
        user := some [("id", user.id), ("username", user.username)] }

/-- `GET /profile` in the unnamed routes module (part_002 lines 25-37): same
flow, but projected to `attributes: ["id", "username", "email"]`. -/
def getProfileWithEmail (store : List UserRec) (secret : String) (now : Nat)
    (authHeader : Option String) : HttpResponse :=
  match verifyToken authHeader secret now with
  | .noToken => { status := 403, message := "No token provided." }
  | .invalidToken => { status := 401, message := "Invalid token." }
  | .authorized uid =>
    match findByPk store uid with
    | none => { status := 404, message := "User not found." }
    | some user =>
      { status := 200, message := "Welcome to your profile!",
        user := some [("id", user.id), ("username", user.username), ("email", user.email)] }

/-! ### Helper lemmas -/

/-- Searching an appended list when the first part has no hit. -/
theorem find?_append_of_none {α : Type} (p : α → Bool) (l1 l2 : List α)
    (h : l1.find? p = none) : (l1 ++ l2).find? p = l2.find? p := by
  induction l1 with
  | nil => simp
  | cons a l ih =>
    rw [List.find?_cons] at h
    rw [List.cons_append, List.find?_cons]
    cases hp : p a with
    | true => rw [hp] at h; simp at h
    | false =>
      rw [hp] at h
      simp only [hp]
      exact ih h

/-- Normal form of the middleware on a present header: the outcome is a
function of the second space-separated segment alone. -/
theorem verifyToken_some_eq (h secret : String) (now : Nat) :
    verifyToken (some h) secret now
      = (match (jsSplit ' ' h)[1]? with
         | none => .noToken
         | some t =>
           if t = "" then .noToken
           else
             match jwtVerify (jwtDecode t) secret now with
             | .error _ => .invalidToken
             | .ok uid => .authorized uid) := by
  by_cases hh : h = ""
  · subst hh; rfl
  · have hex : extractToken (some h)
        = (match (jsSplit ' ' h)[1]? with
           | none => none
           | some t => if t = "" then none else some t) := by
      simp only [extractToken, if_neg hh]
    unfold verifyToken
    rw [hex]
    cases hseg : (jsSplit ' ' h)[1]? with
    | none => rfl
    | some t =>
      by_cases ht : t = ""
      · subst ht; simp
      · simp [ht]

/-! ### Claims -/

/-- C4: for every expired reset token and every valid new password, the
reset-confirm operation answers TokenExpired (400 "Token expired.") and the
store — in particular every password_hash in it — is returned unchanged. -/
theorem c4_expired_reset_leaves_password_unchanged
    (store : List UserRec) (secret uid : String) (t0 now : Nat) (newPw : String)
    (hval : newPasswordValidate (some (.wellFormed (jwtSign uid secret t0))) (some newPw)
      = .ok (.wellFormed (jwtSign uid secret t0), newPw))
    (hexp : t0 + 3600 ≤ now) :
    resetPassword store secret now (some (.wellFormed (jwtSign uid secret t0))) (some newPw)
      = ({ status := 400, message := "Token expired." }, store) := by
  simp only [resetPassword, hval]
  simp [jwtVerify, jwtSign, hexp]

/-- Witness for C4 at a concrete store, token and clock. -/
theorem c4_witness :
    resetPassword [⟨"u1", "alice01", "a@x.com", bcryptHash "Abcdef1!" 10⟩] "sec" 3600
        (some (.wellFormed (jwtSign "u1" "sec" 0))) (some "Xbcdef1!")
      = ({ status := 400, message := "Token expired." },
         [⟨"u1", "alice01", "a@x.com", bcryptHash "Abcdef1!" 10⟩]) :=
  c4_expired_reset_leaves_password_unchanged
    [⟨"u1", "alice01", "a@x.com", bcryptHash "Abcdef1!" 10⟩] "sec" "u1" 0 3600 "Xbcdef1!"
    (by rfl) (by decide)

/-- C5: for every valid registration input with no prior username or email
conflict, registration succeeds with status 201 and the fresh user id, the
stored record is retrievable under that id, its password column verifies
against the original plaintext, and it never equals the plaintext. -/
theorem c5_register_stores_verifying_hash
    (store : List UserRec) (newId u p e : String)
    (hval : registerValidate (some u) (some p) (some e) = .ok (u, p, e))
    (hconf : uniqueConflict store u e = false)
    (hfresh : findByPk store newId = none) :
    register store newId (some u) (some p) (some e)
      = ({ status := 201, message := "User registered successfully.", userId := some newId },
         store ++ [⟨newId, u, e, bcryptHash p 10⟩]) ∧
    findByPk (store ++ [⟨newId, u, e, bcryptHash p 10⟩]) newId
      = some ⟨newId, u, e, bcryptHash p 10⟩ ∧
    bcryptCompare p (bcryptHash p 10) = true ∧
    bcryptHash p 10 ≠ p := by
  refine ⟨?_, ?_, ?_, ?_⟩
  · simp only [register, hval]
    simp [hconf]
  · unfold findByPk at hfresh ⊢
    rw [find?_append_of_none _ _ _ hfresh]
    simp [List.find?]
  · simp [bcryptCompare]
  · intro hcontra
    have hlen := congrArg String.length hcontra
    rw [show bcryptHash p 10 = "$2b$10$" ++ p from rfl, String.length_append,
      show ("$2b$10$" : String).length = 7 from rfl] at hlen
    omega

/-- Witness for C5 at a concrete store and input. -/
theorem c5_witness :
    register [⟨"u1", "alice01", "a@x.com", bcryptHash "Abcdef1!" 10⟩] "u2"
        (some "bobby1") (some "Zyxwvu9#") (some "b@x.com")
      = ({ status := 201, message := "User registered successfully.", userId := some "u2" },
         [⟨"u1", "alice01", "a@x.com", bcryptHash "Abcdef1!" 10⟩,
          ⟨"u2", "bobby1", "b@x.com", bcryptHash "Zyxwvu9#" 10⟩]) ∧
    bcryptCompare "Zyxwvu9#" (bcryptHash "Zyxwvu9#" 10) = true ∧
    bcryptHash "Zyxwvu9#" 10 ≠ "Zyxwvu9#" := by
  have h := c5_register_stores_verifying_hash
    [⟨"u1", "alice01", "a@x.com", bcryptHash "Abcdef1!" 10⟩] "u2" "bobby1" "Zyxwvu9#" "b@x.com"
    (by rfl) (by decide) (by decide)
  exact ⟨h.1, h.2.2.1, h.2.2.2⟩

/-- C6: login with correct credentials answers 200 with a token for the user
id; verifying that token strictly inside the 1-hour window succeeds and
decodes to that id, and verifying it at or after expiry fails with Expired. -/
theorem c6_login_token_lifecycle
    (store : List UserRec) (secret : String) (now : Nat) (u p : String) (user : UserRec)
    (hval : loginValidate (some u) (some p) = .ok (u, p))
    (hfind : findByUsername store u = some user)
    (hpw : bcryptCompare p user.password = true) :
    login store secret now (some u) (some p)
      = { status := 200, message := "Login successful.",
          token := some (jwtSign user.id secret now) } ∧
    (∀ t : Nat, t < now + 3600 →
      jwtVerify (.wellFormed (jwtSign user.id secret now)) secret t = .ok user.id) ∧
    (∀ t : Nat, now + 3600 ≤ t →
      jwtVerify (.wellFormed (jwtSign user.id secret now)) secret t = .error .expired) := by
  refine ⟨?_, ?_, ?_⟩
  · simp [login, hval, hfind, hpw]
  · intro t ht
    simp [jwtVerify, jwtSign, Nat.not_le.mpr ht]
  · intro t ht
    simp [jwtVerify, jwtSign, ht]

/-- Witness for C6 at a concrete store, clock and both sides of the window. -/
theorem c6_witness :
    login [⟨"u1", "alice01", "a@x.com", bcryptHash "Abcdef1!" 10⟩] "sec" 0
        (some "alice01") (some "Abcdef1!")
      = { status := 200, message := "Login successful.",
          token := some (jwtSign "u1" "sec" 0) } ∧
    jwtVerify (.wellFormed (jwtSign "u1" "sec" 0)) "sec" 3599 = .ok "u1" ∧
    jwtVerify (.wellFormed (jwtSign "u1" "sec" 0)) "sec" 3600 = .error .expired := by
  have h := c6_login_token_lifecycle
    [⟨"u1", "alice01", "a@x.com", bcryptHash "Abcdef1!" 10⟩] "sec" 0 "alice01" "Abcdef1!"
    ⟨"u1", "alice01", "a@x.com", bcryptHash "Abcdef1!" 10⟩
    (by rfl) (by decide) (by decide)
  exact ⟨h.1, h.2.1 3599 (by decide), h.2.2 3600 (by decide)⟩

/-- C7: the login failure for an unknown username is the very same response
(status and message) as the failure for a known username with a wrong
password, so the caller cannot tell the two apart. -/
theorem c7_login_failure_indistinguishable
    (store1 store2 : List UserRec) (secret1 secret2 : String) (now1 now2 : Nat)
    (u1 p1 u2 p2 : String) (user : UserRec)
    (hval1 : loginValidate (some u1) (some p1) = .ok (u1, p1))
    (hval2 : loginValidate (some u2) (some p2) = .ok (u2, p2))
    (hmiss : findByUsername store1 u1 = none)
    (hhit : findByUsername store2 u2 = some user)
    (hpw : bcryptCompare p2 user.password = false) :
    login store1 secret1 now1 (some u1) (some p1)
      = login store2 secret2 now2 (some u2) (some p2) ∧
    login store1 secret1 now1 (some u1) (some p1)
      = { status := 400, message := "Invalid username or password." } := by
  have h1 : login store1 secret1 now1 (some u1) (some p1)
      = { status := 400, message := "Invalid username or password." } := by
    simp [login, hval1, hmiss]
  have h2 : login store2 secret2 now2 (some u2) (some p2)
      = { status := 400, message := "Invalid username or password." } := by
    simp [login, hval2, hhit, hpw]
  exact ⟨h1.trans h2.symm, h1⟩

/-- Witness for C7: unknown user against known user with wrong password. -/
theorem c7_witness :
    login [] "k1" 0 (some "bob11") (some "pw")
      = login [⟨"u1", "alice01", "a@x.com", bcryptHash "Abcdef1!" 10⟩] "k2" 9
          (some "alice01") (some "Wrong123!") ∧
    login [] "k1" 0 (some "bob11") (some "pw")
      = { status := 400, message := "Invalid username or password." } :=
  c7_login_failure_indistinguishable [] [⟨"u1", "alice01", "a@x.com", bcryptHash "Abcdef1!" 10⟩]
    "k1" "k2" 0 9 "bob11" "pw" "alice01" "Wrong123!"
    ⟨"u1", "alice01", "a@x.com", bcryptHash "Abcdef1!" 10⟩
    (by rfl) (by rfl) (by decide) (by decide) (by decide)

/-- C9: a well-formed email that matches no user makes the reset-request
operation answer EmailNotFound (404) with no invocation of the mail
collaborator. -/
theorem c9_unknown_email_sends_no_mail
    (store : List UserRec) (secret frontendUrl : String) (now : Nat) (e : String)
    (hshape : emailShaped e = true)
    (hfind : findByEmail store e = none) :
    resetPasswordRequest store secret frontendUrl now (some e)
      = ({ status := 404, message := "Email not found." }, []) := by
  simp [resetPasswordRequest, resetPasswordValidate, hshape, hfind]

/-- Witness for C9 at a concrete store and unknown address. -/
theorem c9_witness :
    resetPasswordRequest [⟨"u1", "alice01", "a@x.com", bcryptHash "Abcdef1!" 10⟩]
        "sec" "http://front" 7 (some "b@x.com")
      = ({ status := 404, message := "Email not found." }, []) :=
  c9_unknown_email_sends_no_mail [⟨"u1", "alice01", "a@x.com", bcryptHash "Abcdef1!" 10⟩]
    "sec" "http://front" 7 "b@x.com" (by decide) (by decide)

/-- C10: a missing Authorization header, or one whose second space-separated
segment is absent (or empty), is rejected by the middleware as noToken — at
the profile route 403 "No token provided." for every store, secret and clock,
hence before any verification or store access; the outcome depends only on the
second segment, never on the scheme word, so any first word followed by a
token that verifies is authorized. -/
theorem c10_middleware_header_handling (secret : String) (now : Nat) :
    verifyToken none secret now = .noToken ∧
    (∀ h : String, (jsSplit ' ' h)[1]? = none →
      verifyToken (some h) secret now = .noToken) ∧
    (∀ h : String, (jsSplit ' ' h)[1]? = some "" →
      verifyToken (some h) secret now = .noToken) ∧
    (∀ h t uid : String, (jsSplit ' ' h)[1]? = some t → t ≠ "" →
      jwtVerify (jwtDecode t) secret now = .ok uid →
      verifyToken (some h) secret now = .authorized uid) ∧
    (∀ h1 h2 : String, (jsSplit ' ' h1)[1]? = (jsSplit ' ' h2)[1]? →
      verifyToken (some h1) secret now = verifyToken (some h2) secret now) ∧
    (∀ (store : List UserRec) (h : String), (jsSplit ' ' h)[1]? = none →
      getProfile store secret now (some h)
        = { status := 403, message := "No token provided." }) := by
  refine ⟨rfl, ?_, ?_, ?_, ?_, ?_⟩
  · intro h hseg
    rw [verifyToken_some_eq, hseg]
  · intro h hseg
    rw [verifyToken_some_eq, hseg]
    simp
  · intro h t uid hseg ht hok
    rw [verifyToken_some_eq, hseg]
    simp [ht, hok]
  · intro h1 h2 hseg
    rw [verifyToken_some_eq, verifyToken_some_eq, hseg]
  · intro store h hseg
    have hv : verifyToken (some h) secret now = .noToken := by
      rw [verifyToken_some_eq, hseg]
    unfold getProfile
    rw [hv]

/-- Witness for C10: a header with no second segment is rejected, and a
non-Bearer scheme word followed by a verifying token is authorized. -/
theorem c10_witness :
    verifyToken (some "Tokenless") "sec" 0 = .noToken ∧
    verifyToken (some "Whatever u1.0.3600.sec") "sec" 0 = .authorized "u1" ∧
    getProfile [] "sec" 0 (some "NoSecondSegment")
      = { status := 403, message := "No token provided." } :=
  ⟨(c10_middleware_header_handling "sec" 0).2.1 "Tokenless" (by decide),
   (c10_middleware_header_handling "sec" 0).2.2.2.1 "Whatever u1.0.3600.sec"
     "u1.0.3600.sec" "u1" (by decide) (by decide) (by rfl),
   (c10_middleware_header_handling "sec" 0).2.2.2.2.2 [] "NoSecondSegment" (by decide)⟩

/-- C2 as stated is false: at the profile middleware an expired token and a
token with a bad signature produce the very same response, 401
"Invalid token." — expiry is not mapped to a kind distinct from the
bad-signature kind.  Concretely: the token signed for subject u1 with secret
sec expiring at 3600, presented at time 3600, and the same token signed with a
different secret, presented at time 0, are answered identically. -/
theorem c2_claim_counterexample :
    getProfile [] "sec" 3600 (some "Bearer u1.0.3600.sec")
      = getProfile [] "sec" 0 (some "Bearer u1.0.3600.bad") ∧
    getProfile [] "sec" 3600 (some "Bearer u1.0.3600.sec")
      = { status := 401, message := "Invalid token." } := by
  exact ⟨by decide, by decide⟩

/-- C2 amended: in the profile-retrieval middleware every token-verification
failure — expiry, bad signature or malformed token alike — maps to the single
invalid-token outcome, answered 401 "Invalid token." for every store. -/
theorem c2_amended_all_failures_invalid_token
    (authHeader : Option String) (secret : String) (now : Nat)
    (t : String) (e : JwtError)
    (hex : extractToken authHeader = some t)
    (hverr : jwtVerify (jwtDecode t) secret now = .error e) :
    verifyToken authHeader secret now = .invalidToken ∧
    ∀ store : List UserRec,
      getProfile store secret now authHeader
        = { status := 401, message := "Invalid token." } := by
  have h1 : verifyToken authHeader secret now = .invalidToken := by
    unfold verifyToken
    rw [hex]
    simp [hverr]
  refine ⟨h1, fun store => ?_⟩
  unfold getProfile
  rw [h1]

/-- Witness for the amended C2 at an expired token. -/
theorem c2_witness :
    verifyToken (some "Bearer u1.0.3600.sec") "sec" 3600 = .invalidToken ∧
    getProfile [] "sec" 3600 (some "Bearer u1.0.3600.sec")
      = { status := 401, message := "Invalid token." } :=
  ⟨(c2_amended_all_failures_invalid_token (some "Bearer u1.0.3600.sec") "sec" 3600
      "u1.0.3600.sec" .expired (by decide) (by rfl)).1,
   (c2_amended_all_failures_invalid_token (some "Bearer u1.0.3600.sec") "sec" 3600
      "u1.0.3600.sec" .expired (by decide) (by rfl)).2 []⟩

/-- C1 as stated is false: a reset-confirm with a token that fails
verification for a reason other than expiry (here a malformed token) is
answered 500 "Internal server error.", not InvalidToken: the catch block of
the handler only distinguishes TokenExpiredError. -/
theorem c1_claim_counterexample :
    (resetPassword [] "sec" 0 (some (.garbage "not-a-jwt")) (some "Abcdef1!")).1.message
      ≠ "Invalid token." ∧
    resetPassword [] "sec" 0 (some (.garbage "not-a-jwt")) (some "Abcdef1!")
      = ({ status := 500, message := "Internal server error." }, []) := by
  exact ⟨by decide, by decide⟩

/-- C1 amended: on a validated reset-confirm body, an Expired verification
failure answers TokenExpired (400 "Token expired.") and any other verification
failure answers InternalError (500 "Internal server error."); in both cases
this happens for every store, which is returned unchanged — no user record
influences the response or is written.  ("Invalid token." arises only later,
when the decoded subject matches no user.) -/
theorem c1_amended_verify_failure_mapping
    (store : List UserRec) (secret : String) (now : Nat)
    (token : TokenInput) (newPw : String)
    (hval : newPasswordValidate (some token) (some newPw) = .ok (token, newPw)) :
    (jwtVerify token secret now = .error .expired →
      resetPassword store secret now (some token) (some newPw)
        = ({ status := 400, message := "Token expired." }, store)) ∧
    (∀ e : JwtError, e ≠ .expired → jwtVerify token secret now = .error e →
      resetPassword store secret now (some token) (some newPw)
        = ({ status := 500, message := "Internal server error." }, store)) := by
  constructor
  · intro hv
    simp only [resetPassword, hval, hv]
  · intro e he hv
    cases e with
    | expired => exact absurd rfl he
    | invalidSignature => simp only [resetPassword, hval, hv]
    | malformed => simp only [resetPassword, hval, hv]

/-- Witness for the amended C1 at a malformed token and a bad-signature
token. -/
theorem c1_witness :
    resetPassword [⟨"u1", "alice01", "a@x.com", bcryptHash "Abcdef1!" 10⟩] "sec" 0
        (some (.garbage "zzz")) (some "Xbcdef1!")
      = ({ status := 500, message := "Internal server error." },
         [⟨"u1", "alice01", "a@x.com", bcryptHash "Abcdef1!" 10⟩]) ∧
    resetPassword [⟨"u1", "alice01", "a@x.com", bcryptHash "Abcdef1!" 10⟩] "sec" 0
        (some (.wellFormed (jwtSign "u1" "other" 0))) (some "Xbcdef1!")
      = ({ status := 500, message := "Internal server error." },
         [⟨"u1", "alice01", "a@x.com", bcryptHash "Abcdef1!" 10⟩]) :=
  ⟨(c1_amended_verify_failure_mapping
      [⟨"u1", "alice01", "a@x.com", bcryptHash "Abcdef1!" 10⟩] "sec" 0
      (.garbage "zzz") "Xbcdef1!" (by rfl)).2 .malformed (by decide) (by rfl),
   (c1_amended_verify_failure_mapping
      [⟨"u1", "alice01", "a@x.com", bcryptHash "Abcdef1!" 10⟩] "sec" 0
      (.wellFormed (jwtSign "u1" "other" 0)) "Xbcdef1!" (by rfl)).2
      .invalidSignature (by decide) (by rfl)⟩

/-- C3 as stated is false: in `userRoutes.js` the successful profile response
projects the record to `attributes: ["id", "username"]` only — the email field
of the claimed (id, username, email) projection is absent.  Concretely, for
the stored user alice01 the returned projection carries exactly the id and
username keys. -/
theorem c3_claim_counterexample :
    (getProfile [⟨"u1", "alice01", "a@x.com", bcryptHash "Abcdef1!" 10⟩] "sec" 0
        (some "Bearer u1.0.3600.sec")).user
      = some [("id", "u1"), ("username", "alice01")] ∧
    (getProfile [⟨"u1", "alice01", "a@x.com", bcryptHash "Abcdef1!" 10⟩] "sec" 0
        (some "Bearer u1.0.3600.sec")).user
      ≠ some [("id", "u1"), ("username", "alice01"), ("email", "a@x.com")] := by
  exact ⟨by decide, by decide⟩

/-- C3 amended: a successful profile retrieval returns exactly the
(id, username) projection of the record in the `userRoutes.js` route, and
exactly the (id, username, email) projection in the unnamed-module variant;
in both routes the password column is never part of the returned value, under
any outcome. -/
theorem c3_amended_profile_projection
    (store : List UserRec) (secret : String) (now : Nat) (authHeader : Option String)
    (uid : String) (user : UserRec)
    (hauth : verifyToken authHeader secret now = .authorized uid)
    (hfind : findByPk store uid = some user) :
    getProfile store secret now authHeader
      = { status := 200, message := "Welcome to your profile!",
          user := some [("id", user.id), ("username", user.username)] } ∧
    getProfileWithEmail store secret now authHeader
      = { status := 200, message := "Welcome to your profile!",
          user := some [("id", user.id), ("username", user.username),
                        ("email", user.email)] } ∧
    (∀ (h2 : Option String) (n2 : Nat) (l : List (String × String)) (kv : String × String),
      (getProfile store secret n2 h2).user = some l → kv ∈ l → kv.1 ≠ "password") ∧
    (∀ (h2 : Option String) (n2 : Nat) (l : List (String × String)) (kv : String × String),
      (getProfileWithEmail store secret n2 h2).user = some l → kv ∈ l →
        kv.1 ≠ "password") := by
  refine ⟨?_, ?_, ?_, ?_⟩
  · unfold getProfile
    rw [hauth]
    simp only [hfind]
  · unfold getProfileWithEmail
    rw [hauth]
    simp only [hfind]
  · intro h2 n2 l kv hu hm
    unfold getProfile at hu
    cases hv : verifyToken h2 secret n2 with
    | noToken => rw [hv] at hu; simp at hu
    | invalidToken => rw [hv] at hu; simp at hu
    | authorized uid2 =>
      rw [hv] at hu
      cases hf : findByPk store uid2 with
      | none => simp [hf] at hu
      | some w =>
        simp only [hf, Option.some.injEq] at hu
        subst hu
        simp only [List.mem_cons, List.not_mem_nil, or_false] at hm
        rcases hm with h | h <;> (subst h; simp)
  · intro h2 n2 l kv hu hm
    unfold getProfileWithEmail at hu
    cases hv : verifyToken h2 secret n2 with
    | noToken => rw [hv] at hu; simp at hu
    | invalidToken => rw [hv] at hu; simp at hu
    | authorized uid2 =>
      rw [hv] at hu
      cases hf : findByPk store uid2 with
      | none => simp [hf] at hu
      | some w =>
        simp only [hf, Option.some.injEq] at hu
        subst hu
        simp only [List.mem_cons, List.not_mem_nil, or_false] at hm
        rcases hm with h | h | h <;> (subst h; simp)

/-- Witness for the amended C3 at a concrete store and token. -/
theorem c3_witness :
    getProfile [⟨"u1", "alice01", "a@x.com", bcryptHash "Abcdef1!" 10⟩] "sec" 0
        (some "Bearer u1.0.3600.sec")
      = { status := 200, message := "Welcome to your profile!",
          user := some [("id", "u1"), ("username", "alice01")] } ∧
    getProfileWithEmail [⟨"u1", "alice01", "a@x.com", bcryptHash "Abcdef1!" 10⟩] "sec" 0
        (some "Bearer u1.0.3600.sec")
      = { status := 200, message := "Welcome to your profile!",
          user := some [("id", "u1"), ("username", "alice01"), ("email", "a@x.com")] } := by
  have h := c3_amended_profile_projection
    [⟨"u1", "alice01", "a@x.com", bcryptHash "Abcdef1!" 10⟩] "sec" 0
    (some "Bearer u1.0.3600.sec") "u1"
    ⟨"u1", "alice01", "a@x.com", bcryptHash "Abcdef1!" 10⟩ (by decide) (by decide)
  exact ⟨h.1, h.2.1⟩

/-- C8: session tokens and reset tokens are produced by the same issuing
function of the subject id — login answers with exactly the token
`jwtSign user.id secret now` and reset-request embeds exactly
`jwtSign euser.id secret now` in the mailed link — and the shared shape makes
them interchangeable: a token of that shape for a stored user, inside its
1-hour window, is accepted by the reset-confirm operation (which overwrites
the password) and passes the token verification used by the profile
middleware. -/
theorem c8_session_and_reset_tokens_interchangeable
    (store : List UserRec) (secret frontendUrl : String) (now t0 now2 : Nat)
    (u p e uid newPw : String) (user euser tuser : UserRec)
    (hval : loginValidate (some u) (some p) = .ok (u, p))
    (hfind : findByUsername store u = some user)
    (hpw : bcryptCompare p user.password = true)
    (hemail : emailShaped e = true)
    (hefind : findByEmail store e = some euser)
    (htfind : findByPk store uid = some tuser)
    (hnval : newPasswordValidate (some (.wellFormed (jwtSign uid secret t0))) (some newPw)
      = .ok (.wellFormed (jwtSign uid secret t0), newPw))
    (hwin : now2 < t0 + 3600) :
    (login store secret now (some u) (some p)).token
      = some (jwtSign user.id secret now) ∧
    resetPasswordRequest store secret frontendUrl now (some e)
      = ({ status := 200, message := "Reset link sent successfully." },
         [{ toAddr := e, subject := "Password Reset Request",
            username := euser.username,
            link := frontendUrl ++ "/reset-password?token="
              ++ encodeTokenStr (jwtSign euser.id secret now) }]) ∧
    resetPassword store secret now2 (some (.wellFormed (jwtSign uid secret t0)))
        (some newPw)
      = ({ status := 200, message := "Password reset successfully." },
         store.map (fun r =>
           if r.id == tuser.id then { r with password := bcryptHash newPw 10 } else r)) ∧
    jwtVerify (.wellFormed (jwtSign uid secret t0)) secret now2 = .ok uid := by
  have hverify : jwtVerify (.wellFormed (jwtSign uid secret t0)) secret now2 = .ok uid := by
    simp [jwtVerify, jwtSign, Nat.not_le.mpr hwin]
  refine ⟨?_, ?_, ?_, hverify⟩
  · simp [login, hval, hfind, hpw]
  · simp [resetPasswordRequest, resetPasswordValidate, hemail, hefind]
  · simp only [resetPassword, hnval, hverify, htfind]

/-- Witness for C8 at a concrete store: the login token of alice01 doubles as
a reset token and conversely. -/
theorem c8_witness :
    (login [⟨"u1", "alice01", "a@x.com", bcryptHash "Abcdef1!" 10⟩] "sec" 0
        (some "alice01") (some "Abcdef1!")).token = some (jwtSign "u1" "sec" 0) ∧
    resetPassword [⟨"u1", "alice01", "a@x.com", bcryptHash "Abcdef1!" 10⟩] "sec" 5
        (some (.wellFormed (jwtSign "u1" "sec" 0))) (some "Xbcdef1!")
      = ({ status := 200, message := "Password reset successfully." },
         [⟨"u1", "alice01", "a@x.com", bcryptHash "Xbcdef1!" 10⟩]) ∧
    jwtVerify (.wellFormed (jwtSign "u1" "sec" 0)) "sec" 5 = .ok "u1" := by
  have h := c8_session_and_reset_tokens_interchangeable
    [⟨"u1", "alice01", "a@x.com", bcryptHash "Abcdef1!" 10⟩] "sec" "http://front" 0 0 5
    "alice01" "Abcdef1!" "a@x.com" "u1" "Xbcdef1!"
    ⟨"u1", "alice01", "a@x.com", bcryptHash "Abcdef1!" 10⟩
    ⟨"u1", "alice01", "a@x.com", bcryptHash "Abcdef1!" 10⟩
    ⟨"u1", "alice01", "a@x.com", bcryptHash "Abcdef1!" 10⟩
    (by rfl) (by decide) (by decide) (by decide) (by decide) (by decide)
    (by rfl) (by decide)
  refine ⟨h.1, ?_, h.2.2.2⟩
  have h3 := h.2.2.1
  simpa using h3

end FullstackTemplate
